import Mathlib

/-!
Verification of the backend lifecycle supervisor of the AI-Avatar project
(`src/Open-LLM-VTuber-Web/src/main/backend-manager.ts`, class `BackendManager`)
and of the renderer readiness probe (`useBackendStatus.checkBackend`).

The TypeScript code is shallowly embedded: the ambient environment
(platform, packaging flag, environment variables), the filesystem and the
observable behaviour of the spawned child are packaged into explicit
`Env` / `FileSystem` / `World` records, and each method of `BackendManager`
becomes a pure Lean function from the current `ManagerState` and the world
to the next state together with the list of side effects it performs.
-/

namespace BackendManager

/-- `process.platform`, restricted to the values the code branches on. -/
inductive Platform
  | win32
  | darwin
  | linux
deriving DecidableEq, Repr

/-- The TypeScript union type `BackendState = 'stopped' | 'starting' | 'running'`. -/
inductive BackendState
  | stopped
  | starting
  | running
deriving DecidableEq, Repr

/-- The payload of the `exit` listener: `{ code: number | null; signal: Signals | null }`. -/
structure ExitInfo where
  code : Option Int
  signal : Option String
deriving DecidableEq, Repr

/-- The mutable fields of the `BackendManager` class. -/
structure ManagerState where
  proc : Option Nat
  state : BackendState
  lastSpawnError : Option String
  lastExit : Option ExitInfo
deriving DecidableEq, Repr

/-- The state of a freshly constructed `BackendManager`. -/
def initialState : ManagerState :=
  { proc := none, state := .stopped, lastSpawnError := none, lastExit := none }

/-- Read-only view of the filesystem: `fs.existsSync` and `fs.readFileSync`
(`readFileSync p = none` models a read that throws). -/
structure FileSystem where
  existsSync : String → Bool
  readFileSync : String → Option String

/-- Ambient process environment: platform, Electron packaging flag,
`OPEN_LLM_VTUBER_BACKEND_DIR`, `__dirname`, `process.cwd()` and the fixed
Electron paths. -/
structure Env where
  platform : Platform
  isPackaged : Bool
  backendDirOverride : Option String
  dirname : String
  cwd : String
  userDataPath : String
  resourcesPath : String
  logsPath : String

/-- `path.join(a, b)`. Path separators are modelled as `/`. -/
def pathJoin (a b : String) : String := a ++ "/" ++ b

/-- `path.dirname`: drop the last `/`-separated component. -/
def pathDirname (s : String) : String :=
  match (s.splitOn "/").dropLast with
  | [] => s
  | parts => String.intercalate "/" parts

/-- `getBuildIdFilePath(dir)`: `path.join(dir, 'backend-build-id.txt')`. -/
def getBuildIdFilePath (dir : String) : String :=
  pathJoin dir "backend-build-id.txt"

/-- JavaScript `String.prototype.trim`, modelled over the character list:
strip leading and trailing whitespace. -/
def trimString (s : String) : String :=
  ⟨List.reverse (List.dropWhile Char.isWhitespace
     (List.reverse (List.dropWhile Char.isWhitespace s.data)))⟩

/-- `readBuildId(dir)`: `null` when the marker file is absent, unreadable, or
blank after trimming; otherwise the trimmed contents. -/
def readBuildId (fs : FileSystem) (dir : String) : Option String :=
  let p := getBuildIdFilePath dir
  if fs.existsSync p then
    match fs.readFileSync p with
    | none => none
    | some content =>
      let t := trimString content
      if t = "" then none else some t
  else none

/-- `resolveBackendDir()`: override variable first; packaged builds use the
per-user data directory; in dev, probe the `__dirname`-relative sibling, then
the cwd-relative sibling, and fall back to the `__dirname`-relative candidate. -/
def resolveBackendDir (env : Env) (fs : FileSystem) : String :=
  match env.backendDirOverride with
  | some d => d
  | none =>
    if env.isPackaged then
      pathJoin env.userDataPath "backend"
    else
      let candidateSibling := pathJoin env.dirname "../../../Open-LLM-VTuber"
      if fs.existsSync candidateSibling then candidateSibling
      else
        let candidateCwdSibling := pathJoin env.cwd "../Open-LLM-VTuber"
        if fs.existsSync candidateCwdSibling then candidateCwdSibling
        else candidateSibling

/-- `getBundledBackendSourceDir()`: `path.join(process.resourcesPath, 'backend')`. -/
def getBundledBackendSourceDir (env : Env) : String :=
  pathJoin env.resourcesPath "backend"

/-- `getBackendExecutablePath()`: the PyInstaller one-folder name
(`backend.exe` / `backend`), falling back to the legacy one-file name, and to
the one-folder path when neither exists. -/
def getBackendExecutablePath (fs : FileSystem) (backendDir : String)
    (platform : Platform) : String :=
  let isWindows := platform = .win32
  let backendName := if isWindows then "backend.exe" else "backend"
  let pyinstallerExe := pathJoin backendDir backendName
  if fs.existsSync pyinstallerExe then pyinstallerExe
  else
    let legacyName :=
      if isWindows then "open-llm-vtuber-backend.exe" else "open-llm-vtuber-backend"
    let legacyExe := pathJoin backendDir legacyName
    if fs.existsSync legacyExe then legacyExe
    else pyinstallerExe

/-- `hasCompiledBackend()`. -/
def hasCompiledBackend (fs : FileSystem) (backendDir : String)
    (platform : Platform) : Bool :=
  fs.existsSync (getBackendExecutablePath fs backendDir platform)

/-- `hasEmbeddedPython()`: only on win32, and only when both `python.exe` and
`run_server.py` are present in the backend directory. -/
def hasEmbeddedPython (fs : FileSystem) (backendDir : String)
    (platform : Platform) : Bool :=
  if platform ≠ .win32 then false
  else
    fs.existsSync (pathJoin backendDir "python.exe") &&
      fs.existsSync (pathJoin backendDir "run_server.py")

/-- `getEmbeddedPythonPath()`. -/
def getEmbeddedPythonPath (backendDir : String) : String :=
  pathJoin backendDir "python.exe"

/-- The three launch strategies of the strategy-priority comment in
`startIfNeeded`. -/
inductive Variant
  | compiledExecutable
  | embeddedPython
  | devFallback
deriving DecidableEq, Repr

/-- The variant the `if (hasCompiledBackend) ... else if (hasEmbeddedPython)
... else ...` chain of `startIfNeeded` selects. -/
def chooseVariant (fs : FileSystem) (backendDir : String)
    (platform : Platform) : Variant :=
  if hasCompiledBackend fs backendDir platform then .compiledExecutable
  else if hasEmbeddedPython fs backendDir platform then .embeddedPython
  else .devFallback

/-- What `spawn` is called with: command, argument list and optional `cwd`. -/
structure SpawnSpec where
  cmd : String
  args : List String
  cwd : Option String
deriving DecidableEq, Repr

/-- The dev-mode shell command built by `startIfNeeded`. -/
def devModeCommand (backendDir : String) (platform : Platform) : String :=
  if platform = .win32 then
    "cd /d \"" ++ backendDir ++ "\" && uv run run_server.py"
  else
    String.intercalate " && "
      [ "export PATH=\"$HOME/.local/bin:$PATH\""
      , "source \"$HOME/.local/bin/env\" 2>/dev/null || true"
      , "cd \"" ++ backendDir ++ "\""
      , "uv run run_server.py" ]

/-- The `spawn` call `startIfNeeded` makes for each variant. -/
def spawnSpecFor (fs : FileSystem) (backendDir : String)
    (platform : Platform) : SpawnSpec :=
  match chooseVariant fs backendDir platform with
  | .compiledExecutable =>
    { cmd := getBackendExecutablePath fs backendDir platform
    , args := []
    , cwd := some backendDir }
  | .embeddedPython =>
    { cmd := getEmbeddedPythonPath backendDir
    , args := ["run_server.py"]
    , cwd := some backendDir }
  | .devFallback =>
    let cmd := devModeCommand backendDir platform
    if platform = .win32 then
      { cmd := "cmd.exe", args := ["/d", "/s", "/c", cmd], cwd := none }
    else
      { cmd := "/bin/zsh", args := ["-lc", cmd], cwd := none }

/-- Observable side effects of the supervisor: dialog boxes, filesystem
mutations, log-file opening, process spawning and process signalling. -/
inductive Effect
  | showErrorBox (title msg : String)
  | fsMkdir (p : String)
  | fsRm (p : String)
  | fsCp (src dst : String)
  | openLog (p : String)
  | spawnProc (spec : SpawnSpec)
  | killGroup (pid : Nat)
  | killSingle (pid : Nat)
deriving DecidableEq, Repr

/-- Whether an effect is a `spawn` of a backend child process. -/
def Effect.isSpawnProc : Effect → Bool
  | .spawnProc _ => true
  | _ => false

/-- Outcome of the `mkdirSync` / `rmSync` / `cpSync` block of
`ensureBackendAvailable` when it runs: success, or a throw at one of the
three calls (the catch block reports it). -/
inductive StagingOutcome
  | ok
  | failMkdir (msg : String)
  | failRm (msg : String)
  | failCp (msg : String)
deriving DecidableEq, Repr

/-- One observation the poll loop of `startIfNeeded` makes in an iteration:
whether `isPortOpen()` resolved true, and the values of `lastSpawnError` /
`lastExit` at the subsequent check (set asynchronously by the `error` and
`exit` listeners). -/
structure PollObs where
  portOpen : Bool
  lastSpawnError : Option String
  lastExit : Option ExitInfo
deriving DecidableEq, Repr

/-- A poll-loop iteration in which the port is closed and no spawn error or
exit has been recorded yet. -/
def quietObs : PollObs :=
  { portOpen := false, lastSpawnError := none, lastExit := none }

/-- Everything ambient a single `startIfNeeded()` call can observe: the
environment, the filesystem at call time, the result of the initial
`isPortOpen()` probe, what the staging copy block would do if reached (with
the filesystem resulting from the attempt), the pid `spawn` assigns, the
poll-loop observations up to the deadline, and the log tail read on failure. -/
structure World where
  env : Env
  fs : FileSystem
  portOpen0 : Bool
  stagingOutcome : StagingOutcome
  fsAfterCopy : FileSystem
  newPid : Nat
  polls : List PollObs
  logTail : Option String

/-- `ensureBackendAvailable()`: no-op outside packaged mode or when the
override variable is set; error box when the bundled source is missing;
otherwise compare build ids and re-copy when stale. Returns the effects
performed and the filesystem as it stands afterwards. -/
def ensureBackendAvailable (w : World) (backendDir : String) :
    List Effect × FileSystem :=
  if ¬ w.env.isPackaged then ([], w.fs)
  else if w.env.backendDirOverride.isSome then ([], w.fs)
  else
    let sourceDir := getBundledBackendSourceDir w.env
    if ¬ w.fs.existsSync sourceDir then
      ([.showErrorBox "Bundled backend missing"
          ("Packaged app expected a bundled backend at:\n\n" ++ sourceDir ++
            "\n\nRebuild the installer including backend files.")], w.fs)
    else
      let sourceBuildId := readBuildId w.fs sourceDir
      let targetBuildId := readBuildId w.fs backendDir
      let needsCopy : Bool :=
        !(w.fs.existsSync backendDir) || sourceBuildId.isNone ||
          targetBuildId.isNone || sourceBuildId != targetBuildId
      if ¬ needsCopy then ([], w.fs)
      else
        let copyFailBox : String → Effect := fun m =>
          .showErrorBox "Failed to prepare backend"
            ("Could not copy bundled backend to writable directory:\n\n" ++
              backendDir ++ "\n\nError:\n" ++ m)
        match w.stagingOutcome with
        | .ok =>
          ([.fsMkdir (pathDirname backendDir), .fsRm backendDir,
             .fsCp sourceDir backendDir], w.fsAfterCopy)
        | .failMkdir m =>
          ([.fsMkdir (pathDirname backendDir), copyFailBox m], w.fsAfterCopy)
        | .failRm m =>
          ([.fsMkdir (pathDirname backendDir), .fsRm backendDir,
             copyFailBox m], w.fsAfterCopy)
        | .failCp m =>
          ([.fsMkdir (pathDirname backendDir), .fsRm backendDir,
             .fsCp sourceDir backendDir, copyFailBox m], w.fsAfterCopy)

/-- How the poll loop of `startIfNeeded` ended: the port opened, the loop
broke on a recorded spawn error / early exit, or the deadline elapsed.
`remaining` counts the scheduled poll iterations that were never run. -/
inductive PollOutcome
  | portOpened (remaining : Nat)
  | earlyBreak (err : Option String) (ex : Option ExitInfo) (remaining : Nat)
  | deadline
deriving DecidableEq, Repr

/-- The `while (Date.now() < startDeadlineMs)` loop: check the port first,
then break if a spawn error or exit was recorded, else sleep and repeat; the
observation list ending models the deadline. -/
def pollLoop : List PollObs → PollOutcome
  | [] => .deadline
  | o :: rest =>
    if o.portOpen then .portOpened rest.length
    else if o.lastSpawnError.isSome || o.lastExit.isSome then
      .earlyBreak o.lastSpawnError o.lastExit rest.length
    else pollLoop rest

/-- `String.data` membership test used to model JavaScript `includes`. -/
def containsStr (hay needle : String) : Bool :=
  decide (needle.data <:+: hay.data)

/-- Template interpolation of a `number | null` value. -/
def showNullableInt : Option Int → String
  | some n => toString n
  | none => "null"

/-- The `code=... signal=...` fragment of the early-exit report. -/
def exitCodeSignalText (ex : ExitInfo) : String :=
  "code=" ++ showNullableInt ex.code ++ " signal=" ++ ex.signal.getD "null"

/-- The `extra` string of the failure report: spawn error first, then early
exit, then the still-downloading heuristic hint. -/
def failureExtra (tail : Option String) (err : Option String)
    (ex : Option ExitInfo) : String :=
  match err with
  | some e => "\n\nSpawn error:\n" ++ e
  | none =>
    match ex with
    | some i => "\n\nBackend exited early:\n" ++ exitCodeSignalText i
    | none =>
      let isDownloading :=
        match tail with
        | some t =>
          containsStr t "MiB/s" || containsStr t "Downloading" ||
            containsStr t ".tar.bz2"
        | none => false
      if isDownloading then
        "\n\n⏳ The backend is still downloading required AI models (~1GB).\nPlease wait a few more minutes and try again, or check your internet connection."
      else ""

/-- The full message of the `Backend failed to start` error box. -/
def failureMessage (port : Nat) (logPath : String) (tail : Option String)
    (err : Option String) (ex : Option ExitInfo) : String :=
  "Tried to start backend but it did not open port " ++ toString port ++
    " within 10 minutes." ++ failureExtra tail err ex ++ "\n\nSee log:\n" ++
    logPath ++
    (match tail with
     | some t => "\n\n--- Log tail ---\n" ++ t
     | none => "")

/-- The fixed loopback port the supervisor probes. -/
def backendPort : Nat := 12393

/-- `getLogFilePath()`. -/
def getLogFilePath (env : Env) : String :=
  pathJoin env.logsPath "backend-server.log"

/-- `startIfNeeded()`: the guard on `starting`/`running`, the adoption probe,
payload staging, the missing-directory error, variant selection, the spawn,
the bounded poll loop and the failure report, as one pure step function from
the manager state and the world to the next state plus the effect list. -/
def startIfNeeded (w : World) (s : ManagerState) (backendDir : String) :
    ManagerState × List Effect :=
  if s.state = .starting ∨ s.state = .running then (s, [])
  else if w.portOpen0 then ({ s with state := .running }, [])
  else
    let staged := ensureBackendAvailable w backendDir
    let stagingEffects := staged.1
    let fsAfter := staged.2
    if ¬ fsAfter.existsSync backendDir then
      (s, stagingEffects ++
        [.showErrorBox "Backend not found"
          ("Open-LLM-VTuber backend folder was not found at:\n\n" ++
            backendDir ++
            "\n\nSet OPEN_LLM_VTUBER_BACKEND_DIR to point to your backend folder.")])
    else
      let s1 : ManagerState :=
        { s with state := .starting, lastSpawnError := none, lastExit := none }
      let logPath := getLogFilePath w.env
      let spec := spawnSpecFor fsAfter backendDir w.env.platform
      let s2 : ManagerState := { s1 with proc := some w.newPid }
      let launchEffects := stagingEffects ++ [.openLog logPath, .spawnProc spec]
      match pollLoop w.polls with
      | .portOpened _ => ({ s2 with state := .running }, launchEffects)
      | .earlyBreak err ex _ =>
        ({ s2 with state := .stopped, lastSpawnError := err, lastExit := ex },
          launchEffects ++
            [.showErrorBox "Backend failed to start"
              (failureMessage backendPort logPath w.logTail err ex)])
      | .deadline =>
        ({ s2 with state := .stopped },
          launchEffects ++
            [.showErrorBox "Backend failed to start"
              (failureMessage backendPort logPath w.logTail none none)])

/-- `stop()`: unconditionally clear the handle and set the state to stopped,
then, when a pid was held, best-effort terminate (taskkill tree on win32,
process-group signal elsewhere with a single-process fallback when the group
signal throws); all failures are swallowed. -/
def stop (platform : Platform) (groupKillFails : Bool) (s : ManagerState) :
    ManagerState × List Effect :=
  let pid := s.proc
  let s1 : ManagerState := { s with proc := none, state := .stopped }
  match pid with
  | none => (s1, [])
  | some p =>
    if platform = .win32 then
      (s1, [.spawnProc
        { cmd := "taskkill", args := ["/pid", toString p, "/T", "/F"],
          cwd := none }])
    else if groupKillFails then (s1, [.killGroup p, .killSingle p])
    else (s1, [.killGroup p])

/-- Fold a sequence of `startIfNeeded()` calls (one world per call) over the
manager state, counting the spawned child processes. -/
def runCalls (backendDir : String) (s : ManagerState) :
    List World → ManagerState × Nat
  | [] => (s, 0)
  | w :: ws =>
    let step := startIfNeeded w s backendDir
    let rest := runCalls backendDir step.1 ws
    (rest.1, (step.2.countP Effect.isSpawnProc) + rest.2)

end BackendManager

namespace UseBackendStatus

/-- Outcome of the renderer's `fetch` of the backend root endpoint: an HTTP
response with a status code, or a throw (connection refused, network error,
or the 3-second abort). -/
inductive FetchOutcome
  | response (status : Nat)
  | failure
deriving DecidableEq, Repr

/-- The WHATWG `Response.ok` predicate: status in the 2xx range. -/
def responseOk (status : Nat) : Bool :=
  200 ≤ status && status ≤ 299

/-- `checkBackend()` of `useBackendStatus`: true on `response.ok || status
=== 404`, false on any other response and on any fetch failure. -/
def checkBackend : FetchOutcome → Bool
  | .response st => responseOk st || st == 404
  | .failure => false

end UseBackendStatus

namespace BackendManager

/-! Concrete sample environments, filesystems and worlds used to instantiate
the theorems on executable inputs. -/

/-- Build a `FileSystem` from an association list of paths; a path is present
when listed, and `readFileSync` returns its associated contents. -/
def fsOf (files : List (String × Option String)) : FileSystem :=
  { existsSync := fun p => (files.map Prod.fst).contains p
  , readFileSync := fun p => (files.lookup p).join }

/-- A development-mode environment on Linux. -/
def devEnv : Env :=
  { platform := .linux
  , isPackaged := false
  , backendDirOverride := none
  , dirname := "D"
  , cwd := "C"
  , userDataPath := "UD"
  , resourcesPath := "RES"
  , logsPath := "LOGS" }

/-- A packaged-mode environment on Windows. -/
def packagedEnv : Env :=
  { platform := .win32
  , isPackaged := true
  , backendDirOverride := none
  , dirname := "D"
  , cwd := "C"
  , userDataPath := "UD"
  , resourcesPath := "RES"
  , logsPath := "LOGS" }

/-- A world with the given environment, filesystem, initial port probe result
and poll observations; staging succeeds and does not change the filesystem. -/
def mkWorld (env : Env) (fs : FileSystem) (portOpen0 : Bool)
    (polls : List PollObs) : World :=
  { env := env
  , fs := fs
  , portOpen0 := portOpen0
  , stagingOutcome := .ok
  , fsAfterCopy := fs
  , newPid := 101
  , polls := polls
  , logTail := none }

/-- A dev world with an empty filesystem and a closed port. -/
def wDevEmpty : World := mkWorld devEnv (fsOf []) false []

/-- A dev world whose health port is already open when the call begins. -/
def wDevPortOpen : World := mkWorld devEnv (fsOf []) true []

/-- A dev world whose backend directory `B` exists on disk. -/
def wDevDir : World := mkWorld devEnv (fsOf [("B", none)]) false []

/-- Deployment directory holding both the compiled executable and the
interpreter pair. -/
def fsBoth : FileSystem :=
  fsOf [("B/backend.exe", none), ("B/python.exe", none),
        ("B/run_server.py", none)]

/-- Deployment directory holding only the interpreter pair. -/
def fsPairOnly : FileSystem :=
  fsOf [("B/python.exe", none), ("B/run_server.py", none)]

/-- Empty deployment directory. -/
def fsNone : FileSystem := fsOf []

/-- Packaged world whose bundled source and staged target both carry build
id `A`. -/
def wSameId : World :=
  mkWorld packagedEnv
    (fsOf [("RES/backend", none),
           ("RES/backend/backend-build-id.txt", some "A"),
           ("UD/backend", none),
           ("UD/backend/backend-build-id.txt", some "A")])
    false []

/-- Packaged world whose bundled source carries build id `B` while the staged
target still carries `A`. -/
def wDiffId : World :=
  mkWorld packagedEnv
    (fsOf [("RES/backend", none),
           ("RES/backend/backend-build-id.txt", some "B"),
           ("UD/backend", none),
           ("UD/backend/backend-build-id.txt", some "A")])
    false []

/-- The poll observation recording exit code 1 and no signal. -/
def exitCode1Obs : PollObs :=
  { portOpen := false, lastSpawnError := none,
    lastExit := some { code := some 1, signal := none } }

/-- A dev world whose backend directory exists, whose spawned child exits
with code 1 at the second poll iteration, with one further iteration
scheduled after it. -/
def wExit1 : World :=
  mkWorld devEnv (fsOf [("B", none)]) false
    (quietObs :: exitCode1Obs :: quietObs :: [])

/-- Packaged world in which staging is needed (source build id `B`, staged
target still `A`) and the recursive copy throws midway, leaving the target
directory present but incomplete; the poll schedule is empty, so the start
attempt times out at once. -/
def wPartialCopy : World :=
  { env := packagedEnv
  , fs := fsOf [("RES/backend", none),
                ("RES/backend/backend-build-id.txt", some "B"),
                ("UD/backend", none),
                ("UD/backend/backend-build-id.txt", some "A")]
  , portOpen0 := false
  , stagingOutcome := .failCp "ENOSPC: no space left on device"
  , fsAfterCopy := fsOf [("UD/backend", none)]
  , newPid := 42
  , polls := []
  , logTail := none }

/-- C1: while the supervisor state is `starting` or `running`, every
`startIfNeeded()` call returns immediately with the state unchanged and no
effects, so a sequence of such calls spawns no child process at all (hence at
most the one already in flight ever exists). -/
theorem startIfNeeded_idempotent_while_active (s : ManagerState)
    (h : s.state = .starting ∨ s.state = .running) :
    (∀ w dir, startIfNeeded w s dir = (s, [])) ∧
    (∀ dir ws, (runCalls dir s ws).2 = 0) := by
  have hstep : ∀ w dir, startIfNeeded w s dir = (s, []) := by
    intro w dir
    unfold startIfNeeded
    rw [if_pos h]
  refine ⟨hstep, ?_⟩
  intro dir ws
  induction ws with
  | nil => rfl
  | cons w ws ih =>
    simp [runCalls, hstep w dir, ih]

/-- Witness for C1 at a concrete running state and two concrete calls. -/
theorem startIfNeeded_idempotent_while_active_witness :
    startIfNeeded wDevEmpty
        { proc := some 7, state := .running,
          lastSpawnError := none, lastExit := none } "B" =
      ({ proc := some 7, state := .running,
         lastSpawnError := none, lastExit := none }, []) ∧
    (runCalls "B"
        { proc := some 7, state := .running,
          lastSpawnError := none, lastExit := none }
        [wDevEmpty, wDevEmpty]).2 = 0 :=
  ⟨(startIfNeeded_idempotent_while_active _ (Or.inr rfl)).1 wDevEmpty "B",
   (startIfNeeded_idempotent_while_active _ (Or.inr rfl)).2 "B"
     [wDevEmpty, wDevEmpty]⟩

/-- C2: with the supervisor stopped and the health port already accepting
connections, `startIfNeeded()` performs no effect at all (no staging, no
spawn) and sets the state to `running`. -/
theorem startIfNeeded_adopts_external (w : World) (s : ManagerState)
    (dir : String) (hs : s.state = .stopped) (hp : w.portOpen0 = true) :
    startIfNeeded w s dir = ({ s with state := .running }, []) := by
  unfold startIfNeeded
  rw [if_neg (by simp [hs]), if_pos hp]

/-- Witness for C2 at a concrete stopped state and an open port. -/
theorem startIfNeeded_adopts_external_witness :
    startIfNeeded wDevPortOpen initialState "B" =
      ({ initialState with state := .running }, []) :=
  startIfNeeded_adopts_external wDevPortOpen initialState "B" rfl rfl

/-- C10: on any platform other than win32 the embedded-Python probe is false
regardless of the directory contents, so the selected variant is never the
embedded interpreter. -/
theorem hasEmbeddedPython_false_off_win32 (fs : FileSystem) (dir : String)
    (p : Platform) (h : p ≠ .win32) :
    hasEmbeddedPython fs dir p = false ∧
    chooseVariant fs dir p ≠ .embeddedPython := by
  have h1 : hasEmbeddedPython fs dir p = false := by
    simp [hasEmbeddedPython, h]
  refine ⟨h1, ?_⟩
  unfold chooseVariant
  rw [h1]
  by_cases hc : hasCompiledBackend fs dir p <;> simp [hc]

/-- Witness for C10: on Linux, even with `python.exe` and `run_server.py`
both present, the probe is false and the variant is not the embedded
interpreter. -/
theorem hasEmbeddedPython_false_off_win32_witness :
    hasEmbeddedPython (fsOf [("B/python.exe", none), ("B/run_server.py", none)])
        "B" .linux = false ∧
    chooseVariant (fsOf [("B/python.exe", none), ("B/run_server.py", none)])
        "B" .linux ≠ .embeddedPython :=
  hasEmbeddedPython_false_off_win32
    (fsOf [("B/python.exe", none), ("B/run_server.py", none)]) "B" .linux
    (by decide)

/-- C3: variant selection priority. When the compiled-executable probe and
the embedded-interpreter probe both succeed, the compiled executable is
spawned; when only the interpreter pair is found, the embedded interpreter is
spawned with the entry-point script as sole argument; when neither is found,
the development fallback shell is spawned. -/
theorem variant_selection_priority (fs : FileSystem) (dir : String)
    (p : Platform) :
    (hasCompiledBackend fs dir p = true → hasEmbeddedPython fs dir p = true →
      chooseVariant fs dir p = .compiledExecutable ∧
      spawnSpecFor fs dir p =
        { cmd := getBackendExecutablePath fs dir p, args := [],
          cwd := some dir }) ∧
    (hasCompiledBackend fs dir p = false → hasEmbeddedPython fs dir p = true →
      chooseVariant fs dir p = .embeddedPython ∧
      spawnSpecFor fs dir p =
        { cmd := getEmbeddedPythonPath dir, args := ["run_server.py"],
          cwd := some dir }) ∧
    (hasCompiledBackend fs dir p = false → hasEmbeddedPython fs dir p = false →
      chooseVariant fs dir p = .devFallback ∧
      (spawnSpecFor fs dir p).cmd =
        (if p = .win32 then "cmd.exe" else "/bin/zsh") ∧
      (spawnSpecFor fs dir p).cwd = none) := by
  refine ⟨?_, ?_, ?_⟩ <;> intro hc he
  · simp [chooseVariant, spawnSpecFor, hc]
  · simp [chooseVariant, spawnSpecFor, hc, he]
  · refine ⟨by simp [chooseVariant, hc, he], ?_, ?_⟩
    · cases p <;> simp [chooseVariant, spawnSpecFor, hc, he]
    · cases p <;> simp [chooseVariant, spawnSpecFor, hc, he]

/-- Witness for C3 on win32, at the three concrete directory shapes. -/
theorem variant_selection_priority_witness :
    (chooseVariant fsBoth "B" .win32 = .compiledExecutable ∧
      spawnSpecFor fsBoth "B" .win32 =
        { cmd := getBackendExecutablePath fsBoth "B" .win32, args := [],
          cwd := some "B" }) ∧
    (chooseVariant fsPairOnly "B" .win32 = .embeddedPython ∧
      spawnSpecFor fsPairOnly "B" .win32 =
        { cmd := getEmbeddedPythonPath "B", args := ["run_server.py"],
          cwd := some "B" }) ∧
    (chooseVariant fsNone "B" .win32 = .devFallback ∧
      (spawnSpecFor fsNone "B" .win32).cmd =
        (if (Platform.win32 : Platform) = .win32 then "cmd.exe" else "/bin/zsh") ∧
      (spawnSpecFor fsNone "B" .win32).cwd = none) :=
  ⟨(variant_selection_priority fsBoth "B" .win32).1 (by decide) (by decide),
   (variant_selection_priority fsPairOnly "B" .win32).2.1 (by decide) (by decide),
   (variant_selection_priority fsNone "B" .win32).2.2 (by decide) (by decide)⟩

/-- C4: staging condition of `ensureBackendAvailable` in packaged mode with
no override and the bundled source present. It deletes the target and
re-copies exactly when the target is absent, or either build-identity token
reads as missing, or the tokens differ; when the target exists and both
tokens are present and equal it performs no effect at all. -/
theorem ensureBackendAvailable_restages_iff (w : World) (dir : String)
    (hpack : w.env.isPackaged = true)
    (hov : w.env.backendDirOverride = none)
    (hsrc : w.fs.existsSync (getBundledBackendSourceDir w.env) = true)
    (hok : w.stagingOutcome = .ok) :
    ((w.fs.existsSync dir = false ∨
        readBuildId w.fs (getBundledBackendSourceDir w.env) = none ∨
        readBuildId w.fs dir = none ∨
        readBuildId w.fs (getBundledBackendSourceDir w.env) ≠
          readBuildId w.fs dir) →
      (ensureBackendAvailable w dir).1 =
        [.fsMkdir (pathDirname dir), .fsRm dir,
         .fsCp (getBundledBackendSourceDir w.env) dir]) ∧
    (∀ a, w.fs.existsSync dir = true →
      readBuildId w.fs (getBundledBackendSourceDir w.env) = some a →
      readBuildId w.fs dir = some a →
      (ensureBackendAvailable w dir).1 = []) := by
  constructor
  · intro hdisj
    have hneed : (!(w.fs.existsSync dir) ||
        (readBuildId w.fs (getBundledBackendSourceDir w.env)).isNone ||
        (readBuildId w.fs dir).isNone ||
        (readBuildId w.fs (getBundledBackendSourceDir w.env) !=
          readBuildId w.fs dir)) = true := by
      rcases hdisj with h | h | h | h <;>
        simp [h, Option.isNone_iff_eq_none, bne_iff_ne]
    unfold ensureBackendAvailable
    simp [hpack, hov, hsrc, hneed, hok]
  · intro a hex hsb htb
    have hneed : (!(w.fs.existsSync dir) ||
        (readBuildId w.fs (getBundledBackendSourceDir w.env)).isNone ||
        (readBuildId w.fs dir).isNone ||
        (readBuildId w.fs (getBundledBackendSourceDir w.env) !=
          readBuildId w.fs dir)) = false := by
      simp [hex, hsb, htb]
    unfold ensureBackendAvailable
    simp [hpack, hov, hsrc, hneed]

/-- Witness for C4: equal tokens give zero effects; differing tokens give
delete-then-copy. -/
theorem ensureBackendAvailable_restages_iff_witness :
    (ensureBackendAvailable wSameId "UD/backend").1 = [] ∧
    (ensureBackendAvailable wDiffId "UD/backend").1 =
      [.fsMkdir (pathDirname "UD/backend"), .fsRm "UD/backend",
       .fsCp (getBundledBackendSourceDir wDiffId.env) "UD/backend"] :=
  ⟨(ensureBackendAvailable_restages_iff wSameId "UD/backend" rfl rfl
      (by decide) rfl).2 "A" (by decide) (by decide) (by decide),
   (ensureBackendAvailable_restages_iff wDiffId "UD/backend" rfl rfl
      (by decide) rfl).1 (Or.inr (Or.inr (Or.inr (by decide))))⟩

/-- Payload staging never spawns a process. -/
lemma ensureBackendAvailable_no_spawn (w : World) (dir : String) :
    (ensureBackendAvailable w dir).1.countP Effect.isSpawnProc = 0 := by
  simp only [ensureBackendAvailable]
  repeat' split
  all_goals simp [Effect.isSpawnProc]

/-- C7 counterexample: the state with no process handle but state `running`
is reachable (port adoption), and `stop()` on it is not a no-op — it resets
the state to `stopped`. -/
theorem stop_without_handle_not_noop :
    startIfNeeded wDevPortOpen initialState "B" =
      ({ initialState with state := .running }, []) ∧
    (stop .linux false { initialState with state := .running }).1 ≠
      { initialState with state := .running } := by
  constructor
  · rfl
  · decide

/-- C7 amended: `stop()` always clears the handle and resets the state to
`stopped` (even when no handle is held and even when a held `running` state
came from port adoption), independently of whether the group kill throws; it
attempts no termination when no handle is held; and after any `stop()` a
subsequent `startIfNeeded()` against a closed port and an existing backend
directory spawns exactly one process. -/
theorem stop_resets_state_and_allows_restart (p : Platform) (gf : Bool)
    (s : ManagerState) :
    (stop p gf s).1 = { s with proc := none, state := .stopped } ∧
    (s.proc = none → (stop p gf s).2 = []) ∧
    (∀ w dir, w.portOpen0 = false →
      (ensureBackendAvailable w dir).2.existsSync dir = true →
      (startIfNeeded w (stop p gf s).1 dir).2.countP Effect.isSpawnProc = 1) := by
  have h1 : (stop p gf s).1 = { s with proc := none, state := .stopped } := by
    unfold stop
    cases hp : s.proc
    · rfl
    · by_cases hw : p = .win32
      · simp [hw]
      · by_cases hg : gf <;> simp [hw, hg]
  refine ⟨h1, ?_, ?_⟩
  · intro h
    unfold stop
    rw [h]
  · intro w dir hport hdir
    rw [h1]
    unfold startIfNeeded
    rw [if_neg (by simp), if_neg (by simp [hport]), if_neg (by simp [hdir])]
    cases hpoll : pollLoop w.polls <;>
      simp [List.countP_append, List.countP_cons, ensureBackendAvailable_no_spawn,
        Effect.isSpawnProc]

/-- Witness for C7: applied at a held-handle running state, at the initial
state, and at a dev world whose backend directory exists. -/
theorem stop_resets_state_and_allows_restart_witness :
    (stop .linux true
        { proc := some 9, state := .running,
          lastSpawnError := none, lastExit := none }).1 =
      { proc := none, state := .stopped,
        lastSpawnError := none, lastExit := none } ∧
    (stop .linux true initialState).2 = [] ∧
    (startIfNeeded wDevDir
        (stop .linux true
          { proc := some 9, state := .running,
            lastSpawnError := none, lastExit := none }).1 "B").2.countP
      Effect.isSpawnProc = 1 :=
  ⟨(stop_resets_state_and_allows_restart .linux true
      { proc := some 9, state := .running,
        lastSpawnError := none, lastExit := none }).1,
   (stop_resets_state_and_allows_restart .linux true initialState).2.1 rfl,
   (stop_resets_state_and_allows_restart .linux true
      { proc := some 9, state := .running,
        lastSpawnError := none, lastExit := none }).2.2 wDevDir "B" rfl
     (by decide)⟩

/-- C8 counterexample: in dev mode with neither candidate directory on disk,
`resolveBackendDir` returns the first (code-location-relative) candidate, not
the last (cwd-relative) one the claim promises. -/
theorem resolveBackendDir_default_is_first_candidate :
    resolveBackendDir devEnv (fsOf []) =
      pathJoin devEnv.dirname "../../../Open-LLM-VTuber" ∧
    resolveBackendDir devEnv (fsOf []) ≠
      pathJoin devEnv.cwd "../Open-LLM-VTuber" := by decide

/-- C8 amended: `resolveBackendDir` returns the override value when set;
otherwise in packaged mode the per-user location; otherwise the first
existing candidate in order (code-location-relative sibling first, then
cwd-relative sibling), and, when neither exists, defaults to the first
(code-location-relative) candidate. Always total, no side effects. -/
theorem resolveBackendDir_spec (env : Env) (fs : FileSystem) :
    (∀ d, env.backendDirOverride = some d → resolveBackendDir env fs = d) ∧
    (env.backendDirOverride = none → env.isPackaged = true →
      resolveBackendDir env fs = pathJoin env.userDataPath "backend") ∧
    (env.backendDirOverride = none → env.isPackaged = false →
      fs.existsSync (pathJoin env.dirname "../../../Open-LLM-VTuber") = true →
      resolveBackendDir env fs =
        pathJoin env.dirname "../../../Open-LLM-VTuber") ∧
    (env.backendDirOverride = none → env.isPackaged = false →
      fs.existsSync (pathJoin env.dirname "../../../Open-LLM-VTuber") = false →
      fs.existsSync (pathJoin env.cwd "../Open-LLM-VTuber") = true →
      resolveBackendDir env fs = pathJoin env.cwd "../Open-LLM-VTuber") ∧
    (env.backendDirOverride = none → env.isPackaged = false →
      fs.existsSync (pathJoin env.dirname "../../../Open-LLM-VTuber") = false →
      fs.existsSync (pathJoin env.cwd "../Open-LLM-VTuber") = false →
      resolveBackendDir env fs =
        pathJoin env.dirname "../../../Open-LLM-VTuber") := by
  refine ⟨?_, ?_, ?_, ?_, ?_⟩
  · intro d h
    simp [resolveBackendDir, h]
  · intro h1 h2
    simp [resolveBackendDir, h1, h2]
  · intro h1 h2 h3
    simp [resolveBackendDir, h1, h2, h3]
  · intro h1 h2 h3 h4
    simp [resolveBackendDir, h1, h2, h3, h4]
  · intro h1 h2 h3 h4
    simp [resolveBackendDir, h1, h2, h3, h4]

/-- Witness for C8 (amended): the override, the packaged location and the
no-candidate default, each at concrete inputs. -/
theorem resolveBackendDir_spec_witness :
    resolveBackendDir { devEnv with backendDirOverride := some "X" }
      (fsOf []) = "X" ∧
    resolveBackendDir packagedEnv (fsOf []) =
      pathJoin packagedEnv.userDataPath "backend" ∧
    resolveBackendDir devEnv (fsOf [("C/../Open-LLM-VTuber", none)]) =
      pathJoin devEnv.cwd "../Open-LLM-VTuber" :=
  ⟨(resolveBackendDir_spec { devEnv with backendDirOverride := some "X" }
      (fsOf [])).1 "X" rfl,
   (resolveBackendDir_spec packagedEnv (fsOf [])).2.1 rfl rfl,
   (resolveBackendDir_spec devEnv
      (fsOf [("C/../Open-LLM-VTuber", none)])).2.2.2.1 rfl rfl (by decide)
     (by decide)⟩

/-- After any number of quiet iterations, the first observation carrying a
recorded exit (port still closed, no spawn error) breaks the poll loop at
once, leaving the remaining schedule unused. -/
lemma pollLoop_quiet_then_break (k : Nat) (o : PollObs) (rest : List PollObs)
    (hport : o.portOpen = false) (herr : o.lastSpawnError = none)
    (hex : o.lastExit.isSome = true) :
    pollLoop (List.replicate k quietObs ++ o :: rest) =
      .earlyBreak none o.lastExit rest.length := by
  induction k with
  | zero => simp [pollLoop, hport, herr, hex]
  | succ n ih => simpa [pollLoop, quietObs, List.replicate_succ] using ih

/-- C6: when the spawned process exits before the port opens (port closed and
no spawn error throughout), the poll loop breaks at the exit observation with
the remaining schedule unused, `startIfNeeded()` resolves with state
`stopped` and the recorded exit, and the surfaced error box message contains
the text `code=<code> signal=<signal>`. -/
theorem early_exit_stops_poll_and_reports (w : World) (s : ManagerState)
    (dir : String) (k : Nat) (rest : List PollObs) (c : Int)
    (sig : Option String) (hs : s.state = .stopped) (hp : w.portOpen0 = false)
    (hdir : (ensureBackendAvailable w dir).2.existsSync dir = true)
    (hpolls : w.polls = List.replicate k quietObs ++
      ({ portOpen := false, lastSpawnError := none,
         lastExit := some { code := some c, signal := sig } } : PollObs) :: rest) :
    (startIfNeeded w s dir).1.state = .stopped ∧
    (startIfNeeded w s dir).1.lastExit =
      some { code := some c, signal := sig } ∧
    pollLoop w.polls =
      .earlyBreak none (some { code := some c, signal := sig }) rest.length ∧
    (∃ pre post : String,
      Effect.showErrorBox "Backend failed to start"
          (pre ++ ("code=" ++ toString c ++ " signal=" ++ sig.getD "null") ++
            post)
        ∈ (startIfNeeded w s dir).2) := by
  have hloop : pollLoop w.polls =
      .earlyBreak none (some { code := some c, signal := sig }) rest.length := by
    rw [hpolls]
    exact pollLoop_quiet_then_break k _ rest rfl rfl rfl
  have hmsg : failureMessage backendPort (getLogFilePath w.env) w.logTail none
        (some { code := some c, signal := sig }) =
      ("Tried to start backend but it did not open port " ++
          toString backendPort ++ " within 10 minutes." ++
          "\n\nBackend exited early:\n") ++
        ("code=" ++ toString c ++ " signal=" ++ sig.getD "null") ++
        ("\n\nSee log:\n" ++ getLogFilePath w.env ++
          (match w.logTail with
           | some t => "\n\n--- Log tail ---\n" ++ t
           | none => "")) := by
    simp only [failureMessage, failureExtra, exitCodeSignalText,
      showNullableInt, String.append_assoc]
  unfold startIfNeeded
  rw [if_neg (by simp [hs]), if_neg (by simp [hp]), if_neg (by simp [hdir])]
  rw [hloop]
  refine ⟨rfl, rfl, rfl, ?_⟩
  refine ⟨"Tried to start backend but it did not open port " ++
      toString backendPort ++ " within 10 minutes." ++
      "\n\nBackend exited early:\n",
    "\n\nSee log:\n" ++ getLogFilePath w.env ++
      (match w.logTail with
       | some t => "\n\n--- Log tail ---\n" ++ t
       | none => ""), ?_⟩
  rw [← hmsg]
  simp

/-- Witness for C6 at exit code 1: state stopped, exit recorded, the third
scheduled iteration never runs, and the message contains
`code=1 signal=null`. -/
theorem early_exit_stops_poll_and_reports_witness :
    ((startIfNeeded wExit1 initialState "B").1.state = .stopped ∧
    (startIfNeeded wExit1 initialState "B").1.lastExit =
      some { code := some 1, signal := none } ∧
    pollLoop wExit1.polls =
      .earlyBreak none (some { code := some 1, signal := none }) 1 ∧
    (∃ pre post : String,
      Effect.showErrorBox "Backend failed to start"
          (pre ++ ("code=" ++ toString (1 : Int) ++ " signal=" ++
            (none : Option String).getD "null") ++ post)
        ∈ (startIfNeeded wExit1 initialState "B").2)) ∧
    ("code=" ++ toString (1 : Int) ++ " signal=" ++
      (none : Option String).getD "null") = "code=1 signal=null" :=
  ⟨early_exit_stops_poll_and_reports wExit1 initialState "B" 1 [quietObs] 1
      none rfl rfl (by decide) rfl,
   by decide⟩

/-- C5 (code bug): after a staging failure whose partial copy leaves the
target directory present, `startIfNeeded()` surfaces the staging error but
then still spawns a child process from the partial payload (the state machine
advanced to `starting`), contradicting the requirement that a staging failure
block progression and spawn nothing. -/
theorem staging_failure_still_spawns :
    (startIfNeeded wPartialCopy initialState "UD/backend").2.countP
      Effect.isSpawnProc = 1 ∧
    Effect.showErrorBox "Failed to prepare backend"
        ("Could not copy bundled backend to writable directory:\n\nUD/backend\n\nError:\nENOSPC: no space left on device")
      ∈ (startIfNeeded wPartialCopy initialState "UD/backend").2 := by
  decide

end BackendManager

namespace UseBackendStatus

/-- C9 (code bug): the renderer readiness check returns false on an HTTP 500
response even though a response was obtained, contradicting the claim (and
the code's own comment) that any HTTP response counts as ready; 404 and 2xx
do count, and a fetch failure does not. -/
theorem checkBackend_false_on_500 :
    checkBackend (.response 500) = false ∧
    checkBackend (.response 404) = true ∧
    checkBackend (.response 200) = true ∧
    checkBackend .failure = false := by decide

end UseBackendStatus
